import Mathlib

/-!
Shallow embedding of `tensorflow/lite/delegates/gpu/common/task/gpu_operation.cc`.

The central entity is `GPUOperation`: a builder for GPU kernel source text with
fusion of linkable elementwise operations, grid/work-group geometry, and an
argument registry.  Types that live outside this translation unit (`int3`,
`DivideRoundUp`, the `Arguments` registry, tensor descriptors, the tuning
collaborator) are modelled from the specification of their interfaces.
-/

/-- Modelled from the spec: axis tags carried by tensor descriptors; only the
batch axis matters here (`OperationDef::IsBatchSupported` queries it). -/
inductive Axis where
  | BATCH
  | WIDTH
  | HEIGHT
  | DEPTH
  | CHANNELS
deriving DecidableEq, Repr

/-- Modelled from the spec: element data type of a tensor descriptor. -/
inductive DataType where
  | FLOAT32
  | FLOAT16
  | INT32
deriving DecidableEq, Repr

/-- Access mode recorded for each argument binding (access_type.h). -/
inductive AccessType where
  | READ
  | WRITE
  | READ_WRITE
deriving DecidableEq, Repr

/-- Tensor-to-grid mapping policies; `kCustom` is the "none of the named
policies" case in which the explicitly configured grid size is used. -/
inductive TensorToGrid where
  | kCustom
  | kWBToX_HDToY_SToZ
  | kWBToX_HDToY_ZIs1
  | kWBToX_HToY_DToZ
  | kBToX_YIs1_ZIs1
deriving DecidableEq, Repr

/-- Modelled from the spec: numeric precision tag of an operation descriptor. -/
inductive CalculationsPrecision where
  | F32
  | F16
  | F32_F16
deriving DecidableEq, Repr

/-- Modelled from the spec: the 3-component integer vector `int3` of
tflite/gpu types (fields default to zero on construction). -/
structure int3 where
  x : Int := 0
  y : Int := 0
  z : Int := 0
deriving DecidableEq, Repr

/-- Component access `v[i]` on `int3` (index 0 is x, 1 is y, otherwise z). -/
def int3.get (v : int3) (i : Int) : Int :=
  if i = 0 then v.x else if i = 1 then v.y else v.z

/-- Modelled from the spec: `ceil_div(a, b)` is integer division rounding up,
`(n + divisor - 1) / divisor`, with a positive divisor required by contract. -/
def DivideRoundUp (n divisor : Int) : Int :=
  (n + divisor - 1) / divisor

/-- Modelled from the spec: a tensor shape/type descriptor.  `axes` carries the
layout axes (`HasAxis`), `state_vars` the string state set by `SetStateVar`,
and `size_in_bytes` the constant-argument footprint (`GetSizeInBytes`). -/
structure TensorDescriptor where
  data_type : DataType := DataType.FLOAT32
  axes : List Axis := []
  state_vars : List (String × String) := []
  size_in_bytes : Nat := 0
deriving DecidableEq, Repr

/-- Descriptor axis query used by `OperationDef::IsBatchSupported`. -/
def TensorDescriptor.HasAxis (d : TensorDescriptor) (a : Axis) : Bool :=
  d.axes.contains a

/-- Descriptor state-variable update used by `AssembleCode`. -/
def TensorDescriptor.SetStateVar (d : TensorDescriptor) (key value : String) :
    TensorDescriptor :=
  { d with state_vars := d.state_vars ++ [(key, value)] }

/-- Default descriptor (stands for a value-initialised `TensorDescriptor`). -/
def tdDefault : TensorDescriptor := {}

/-- Operation descriptor: ordered source/destination tensor descriptors plus a
precision tag (gpu_operation.h, used throughout gpu_operation.cc). -/
structure OperationDef where
  precision : CalculationsPrecision := CalculationsPrecision.F32
  src_tensors : List TensorDescriptor := []
  dst_tensors : List TensorDescriptor := []
deriving DecidableEq, Repr

/-- `OperationDef::IsBatchSupported` (gpu_operation.cc lines 91-103): true iff
some source or destination descriptor carries the batch axis. -/
def OperationDef.IsBatchSupported (d : OperationDef) : Bool :=
  d.src_tensors.any (fun src => src.HasAxis Axis.BATCH) ||
  d.dst_tensors.any (fun dst => dst.HasAxis Axis.BATCH)

/-- Modelled from the spec: a non-owning tensor view exposing the read-only
shape queries used by grid derivation (`Width`, `Height`, `Depth`, `Slices`,
`Batch`). -/
structure GpuSpatialTensor where
  Width : Int := 0
  Height : Int := 0
  Depth : Int := 0
  Slices : Int := 0
  Batch : Int := 0
deriving DecidableEq, Repr

/-- Default spatial tensor, standing for the out-of-range dereference target. -/
def stDefault : GpuSpatialTensor := {}

/-- Modelled from the spec: opaque device-capability record. -/
structure GpuInfo where
  ok : Bool := true
deriving DecidableEq, Repr

/-- Modelled from the spec: opaque tuning-strategy tag. -/
structure TuningType where
  tag : Nat := 0
deriving DecidableEq, Repr

/-- Modelled from the spec: opaque kernel metadata record. -/
structure KernelInfo where
  tag : Nat := 0
deriving DecidableEq, Repr

/-- One dispatch candidate: a work-group size paired with the work-groups
count computed for it (gpu_operation.h `DispatchInfo`). -/
structure DispatchInfo where
  work_group_size : int3 := {}
  work_groups_count : int3 := {}
deriving DecidableEq, Repr

/-- Character-list renaming engine behind the registry's `RenameArgs`: scans
the code once, and whenever a registered name starts at the cursor emits the
name followed by the suffix.  Fuel-driven structural recursion. -/
def renameAux (names : List (List Char)) (suffix : List Char) :
    Nat → List Char → List Char
  | 0, s => s
  | _ + 1, [] => []
  | fuel + 1, c :: rest =>
    match names.find? (fun n => !n.isEmpty && n.isPrefixOf (c :: rest)) with
    | some n => n ++ suffix ++ renameAux names suffix fuel ((c :: rest).drop n.length)
    | none => c :: renameAux names suffix fuel rest

/-- Modelled from the spec: the Argument Registry owns named argument bindings
(name, access mode, descriptor); full implementation is external. -/
structure Arguments where
  objects : List (String × AccessType × TensorDescriptor) := []
deriving DecidableEq, Repr

/-- Modelled from the spec: `AddObjectRef(name, access_mode, descriptor)`
records a named binding in the registry. -/
def Arguments.AddObjectRef (args : Arguments) (name : String)
    (access : AccessType) (desc : TensorDescriptor) : Arguments :=
  { args with objects := args.objects ++ [(name, access, desc)] }

/-- Modelled from the spec: `RenameArgs(suffix, code)` rewrites every argument
reference in the code body to carry the suffix (a pure text/key substitution
over the registry's names). -/
def Arguments.RenameArgs (args : Arguments) (suffix : String) (code : String) :
    String :=
  String.mk (renameAux (args.objects.map (fun obj => obj.1.data)) suffix.data
    code.data.length code.data)

/-- Modelled from the spec: `Merge(other, suffix)` suffixes every name of the
other registry and appends its bindings; it fails on a duplicate binding
(a name collision with the receiving registry). -/
def Arguments.Merge (args other : Arguments) (suffix : String) :
    Except String Arguments :=
  let renamed := other.objects.map (fun obj => (obj.1 ++ suffix, obj.2.1, obj.2.2))
  if renamed.any (fun obj => args.objects.any (fun o => o.1 == obj.1)) then
    Except.error "merge conflict"
  else
    Except.ok { objects := args.objects ++ renamed }

/-- Modelled from the spec: the registry's device-aware compile step produces
the final kernel text from the assembled body and named code fragments;
its failure modes are device-dependent and external, so the model succeeds,
publishing the assembled body. -/
def Arguments.Compile (args : Arguments) (gpu_info : GpuInfo)
    (linkables : List (String × String)) (code : String) :
    Except String String :=
  Except.ok code

/-- Modelled from the spec: `GetObjects` exposes the bound objects, used to
sum constant-argument byte sizes. -/
def Arguments.GetObjects (args : Arguments) :
    List (String × AccessType × TensorDescriptor) :=
  args.objects

/-- `GetWorkGroupsCountInternal` (gpu_operation.cc lines 28-53): per-axis
ceil-div counts, permuted by the launch order for dimensions 2 and 3. -/
def GetWorkGroupsCountInternal (grid_dimension : Int)
    (grid_size work_group_size work_group_launch_order : int3) : int3 :=
  if grid_dimension = 1 then
    { x := DivideRoundUp grid_size.x work_group_size.x, y := 1, z := 1 }
  else if grid_dimension = 2 then
    let wgs : int3 :=
      { x := DivideRoundUp grid_size.x work_group_size.x,
        y := DivideRoundUp grid_size.y work_group_size.y }
    { x := wgs.get (work_group_launch_order.get 0),
      y := wgs.get (work_group_launch_order.get 1),
      z := 1 }
  else
    let wgs : int3 :=
      { x := DivideRoundUp grid_size.x work_group_size.x,
        y := DivideRoundUp grid_size.y work_group_size.y,
        z := DivideRoundUp grid_size.z work_group_size.z }
    { x := wgs.get (work_group_launch_order.get 0),
      y := wgs.get (work_group_launch_order.get 1),
      z := wgs.get (work_group_launch_order.get 2) }

/-- `GetElementWiseCode` (gpu_operation.cc lines 55-76): the synthesized
elementwise kernel wrapper text. -/
def GetElementWiseCode (op_def : OperationDef) (check_src_slices : Bool) :
    String :=
  let c := "MAIN_FUNCTION(\n"
  let c := c ++ "$0) \x7b\n"
  let c := c ++ "  int X = GLOBAL_ID_0;\n"
  let c := c ++ "  int Y = GLOBAL_ID_1;\n"
  let c := c ++ "  int Z = GLOBAL_ID_2;\n"
  let c := c ++ "  if (X >= args.dst_tensor.Width() || Y >= args.dst_tensor.Height() || Z >= args.dst_tensor.Slices()) return; \n"
  let c :=
    if check_src_slices then
      let c := c ++ "  args.src_tensor::type src = args.src_tensor::zero_value;\n"
      let c := c ++ "  if (Z < args.src_tensor.Slices()) \x7b\n"
      let c := c ++ "    src = args.src_tensor.Read(X, Y, Z);\n"
      c ++ "  \x7d\n"
    else
      c ++ "  args.src_tensor::type src = args.src_tensor.Read(X, Y, Z);\n"
  let c := c ++ "  args.dst_tensor.Write(src, X, Y, Z);\n"
  c ++ "\x7d \n"

/-- The central entity (gpu_operation.h fields, as used by gpu_operation.cc):
kernel body text, argument registry, grid/launch parameters and fusion state. -/
structure GPUOperation where
  args_ : Arguments := {}
  code_ : String := ""
  work_group_size_ : int3 := {}
  compiler_options_ : List String := []
  tensor_to_grid_ : TensorToGrid := TensorToGrid.kCustom
  elementwise_ : Bool := false
  linkable_ : Bool := false
  check_src_channels_size_ : Bool := false
  flops_ : Nat := 0
  const_args_size_ : Nat := 0
  definition_ : OperationDef := {}
  src_ : List GpuSpatialTensor := []
  dst_ : List GpuSpatialTensor := []
  grid_dimension_ : Int := 3
  work_group_launch_order_ : int3 := { x := 0, y := 1, z := 2 }
  grid_size_ : int3 := {}
  src_tensors_names_ : List String := []
  dst_tensors_names_ : List String := []
  work_groups_count_ : int3 := {}
  linkable_count_ : Nat := 0
  elementwise_code_ : String := ""
deriving DecidableEq, Repr

/-- An `OperationDef` whose vectors have been moved from (C++ move empties
the descriptor sequences; the scalar precision tag is left as copied). -/
def OperationDef.movedFrom (d : OperationDef) : OperationDef :=
  { d with src_tensors := [], dst_tensors := [] }

/-- Move constructor (gpu_operation.cc lines 122-143): buffers, registry,
name lists, descriptor and fused code are moved (the source's are emptied);
every scalar field, including the six grid/launch scalars, is copied, so the
moved-from object keeps its own values there.  Returns (target, moved-from). -/
def GPUOperation.moveConstruct (s : GPUOperation) :
    GPUOperation × GPUOperation :=
  (s,
   { s with
      args_ := {},
      code_ := "",
      compiler_options_ := [],
      definition_ := s.definition_.movedFrom,
      src_ := [],
      dst_ := [],
      src_tensors_names_ := [],
      dst_tensors_names_ := [],
      elementwise_code_ := "" })

/-- Move assignment (gpu_operation.cc lines 145-170): buffers, registry, name
lists, descriptor and fused code are moved into the target (the source's are
emptied); `work_group_size_`, `grid_dimension_`, `work_group_launch_order_`,
`grid_size_`, `work_groups_count_` and `linkable_count_` are swapped; the
remaining scalars are copied.  Returns (target, moved-from source). -/
def GPUOperation.moveAssign (t s : GPUOperation) :
    GPUOperation × GPUOperation :=
  ({ s with
      work_group_size_ := s.work_group_size_,
      grid_dimension_ := s.grid_dimension_,
      work_group_launch_order_ := s.work_group_launch_order_,
      grid_size_ := s.grid_size_,
      work_groups_count_ := s.work_groups_count_,
      linkable_count_ := s.linkable_count_ },
   { s with
      args_ := {},
      code_ := "",
      work_group_size_ := t.work_group_size_,
      compiler_options_ := [],
      definition_ := s.definition_.movedFrom,
      src_ := [],
      dst_ := [],
      grid_dimension_ := t.grid_dimension_,
      work_group_launch_order_ := t.work_group_launch_order_,
      grid_size_ := t.grid_size_,
      src_tensors_names_ := [],
      dst_tensors_names_ := [],
      work_groups_count_ := t.work_groups_count_,
      linkable_count_ := t.linkable_count_,
      elementwise_code_ := "" })

/-- `GPUOperation::AddOperation` (gpu_operation.cc lines 172-190).  The host
is mutated in place in C++, so the model returns the resulting host state
together with the status: the link counter bump, code renaming and fused-code
append happen before the registry merge; descriptor/name adoption (child
source descriptors from position 1 on, suffixed names) happens only after a
successful merge. -/
def GPUOperation.AddOperation (host operation : GPUOperation) :
    GPUOperation × Except String Unit :=
  let linkable_count := host.linkable_count_ + 1
  let unique_suffix := "_link" ++ toString linkable_count
  let code := operation.args_.RenameArgs unique_suffix operation.code_
  let host := { host with
    linkable_count_ := linkable_count,
    elementwise_code_ := host.elementwise_code_ ++ "\x7b\n" ++ code ++ "\n\x7d\n" }
  match host.args_.Merge operation.args_ unique_suffix with
  | Except.error e => (host, Except.error e)
  | Except.ok merged =>
    let host := { host with
      args_ := merged,
      definition_ := { host.definition_ with
        src_tensors := host.definition_.src_tensors ++
          (operation.definition_.src_tensors.drop 1).take
            operation.src_tensors_names_.length },
      src_tensors_names_ := host.src_tensors_names_ ++
        operation.src_tensors_names_.map (fun n => n ++ unique_suffix),
      dst_tensors_names_ := host.dst_tensors_names_ ++
        operation.dst_tensors_names_.map (fun n => n ++ unique_suffix) }
    (host, Except.ok ())

/-- `GPUOperation::AddSrcTensor` (gpu_operation.cc lines 192-197). -/
def GPUOperation.AddSrcTensor (op : GPUOperation) (tensor_name : String)
    (desc : TensorDescriptor) : GPUOperation :=
  { op with
    src_tensors_names_ := op.src_tensors_names_ ++ [tensor_name],
    args_ := op.args_.AddObjectRef tensor_name AccessType.READ desc }

/-- `GPUOperation::AddDstTensor` (gpu_operation.cc lines 213-218). -/
def GPUOperation.AddDstTensor (op : GPUOperation) (tensor_name : String)
    (desc : TensorDescriptor) : GPUOperation :=
  { op with
    dst_tensors_names_ := op.dst_tensors_names_ ++ [tensor_name],
    args_ := op.args_.AddObjectRef tensor_name AccessType.WRITE desc }

/-- `GPUOperation::CalculateConstArgsSize` (gpu_operation.cc lines 252-257). -/
def GPUOperation.CalculateConstArgsSize (op : GPUOperation) : GPUOperation :=
  { op with const_args_size_ :=
      op.args_.GetObjects.foldl (fun s obj => s + obj.2.2.size_in_bytes) 0 }

/-- `GPUOperation::AssembleCode` (gpu_operation.cc lines 220-245): for an
elementwise operation, injects the implicit `src_tensor`/`dst_tensor`
bindings (batched-width hint when the definition supports batch), prepends
the own code in a lexical block to the fused code and replaces the body by
the elementwise wrapper; then compiles through the registry and computes the
constant-argument size.  No call-count guard is present. -/
def GPUOperation.AssembleCode (op : GPUOperation) (gpu_info : GpuInfo) :
    Except String GPUOperation :=
  let op :=
    if op.elementwise_ then
      let src_desc := op.definition_.src_tensors.headD tdDefault
      let src_desc :=
        if op.definition_.IsBatchSupported then
          src_desc.SetStateVar "BatchedWidth" "true"
        else src_desc
      let op := { op with
        src_tensors_names_ := "src_tensor" :: op.src_tensors_names_,
        args_ := op.args_.AddObjectRef "src_tensor" AccessType.READ src_desc }
      let dst_desc := op.definition_.dst_tensors.headD tdDefault
      let dst_desc :=
        if op.definition_.IsBatchSupported then
          dst_desc.SetStateVar "BatchedWidth" "true"
        else dst_desc
      let op := { op with
        dst_tensors_names_ := "dst_tensor" :: op.dst_tensors_names_,
        args_ := op.args_.AddObjectRef "dst_tensor" AccessType.WRITE dst_desc }
      { op with
        elementwise_code_ := "\x7b\n" ++ op.code_ ++ "\n\x7d\n" ++ op.elementwise_code_,
        code_ := GetElementWiseCode op.definition_ op.check_src_channels_size_ }
    else op
  match op.args_.Compile gpu_info
      [(op.dst_tensors_names_.headD "", op.elementwise_code_)] op.code_ with
  | Except.error e => Except.error e
  | Except.ok compiled =>
    Except.ok (GPUOperation.CalculateConstArgsSize { op with code_ := compiled })

/-- `GPUOperation::RecalculateWorkGroupsCount` (gpu_operation.cc 247-250). -/
def GPUOperation.RecalculateWorkGroupsCount (op : GPUOperation) : GPUOperation :=
  { op with work_groups_count_ := (GetWorkGroupsCountInternal
      op.grid_dimension_ op.grid_size_ op.work_group_size_
      op.work_group_launch_order_) }

/-- `GPUOperation::GetPossibleDispatches` (gpu_operation.cc lines 259-274):
the candidate work-group sizes come from the external tuning collaborator
(`GetPossibleKernelWorkGroups`), modelled as the `work_group_sizes` input;
each candidate is paired with the work-groups count computed from the
operation's grid dimension, grid size and launch order. -/
def GPUOperation.GetPossibleDispatches (op : GPUOperation)
    (work_group_sizes : List int3) : List DispatchInfo :=
  work_group_sizes.map (fun wg =>
    { work_group_size := wg,
      work_groups_count := GetWorkGroupsCountInternal
        op.grid_dimension_ op.grid_size_ wg op.work_group_launch_order_ })

/-- `GPUOperation::GetGridSize` (gpu_operation.cc lines 283-309). -/
def GPUOperation.GetGridSize (op : GPUOperation) : int3 :=
  let d0 := op.dst_.headD stDefault
  if op.elementwise_ || op.tensor_to_grid_ == TensorToGrid.kWBToX_HDToY_SToZ then
    { x := d0.Width * d0.Batch, y := d0.Height * d0.Depth, z := d0.Slices }
  else if op.tensor_to_grid_ == TensorToGrid.kWBToX_HDToY_ZIs1 then
    { x := d0.Width * d0.Batch, y := d0.Height * d0.Depth, z := 1 }
  else if op.tensor_to_grid_ == TensorToGrid.kWBToX_HToY_DToZ then
    { x := d0.Width * d0.Batch, y := d0.Height, z := d0.Depth }
  else if op.tensor_to_grid_ == TensorToGrid.kBToX_YIs1_ZIs1 then
    { x := d0.Batch, y := 1, z := 1 }
  else
    op.grid_size_

/-- A descriptor without a batch axis, used by concrete instances below. -/
def tdN : TensorDescriptor := { axes := [Axis.WIDTH, Axis.HEIGHT, Axis.CHANNELS] }

/-- A descriptor with a batch axis, used by concrete instances below. -/
def tdB : TensorDescriptor :=
  { axes := [Axis.BATCH, Axis.WIDTH, Axis.HEIGHT, Axis.CHANNELS], size_in_bytes := 16 }

/-- A concrete device-capability record. -/
def gi0 : GpuInfo := {}

/-- A concrete elementwise operation (single source and destination). -/
def c1op : GPUOperation :=
  { elementwise_ := true,
    code_ := "value = value * INIT_FLT4(2.0f);",
    definition_ := { src_tensors := [tdN], dst_tensors := [tdN] } }

/-- The state of `c1op` after the first `AssembleCode` call. -/
def c1op1 : GPUOperation := (c1op.AssembleCode gi0).toOption.getD c1op

/-- The state of `c1op` after a second `AssembleCode` call. -/
def c1op2 : GPUOperation := (c1op1.AssembleCode gi0).toOption.getD c1op

/-- The post-state facts of a successful `AddOperation(child)` on the host:
counter bump, suffix derivation, fused-code append, adoption of the child's
source descriptors from position 1 on, and of all suffixed names. -/
def C2Post (host operation : GPUOperation) : Prop :=
  (GPUOperation.AddOperation host operation).1.linkable_count_ =
    host.linkable_count_ + 1 ∧
  (GPUOperation.AddOperation host operation).1.elementwise_code_ =
    host.elementwise_code_ ++ "\x7b\n" ++
      (operation.args_.RenameArgs ("_link" ++ toString (host.linkable_count_ + 1))
        operation.code_) ++ "\n\x7d\n" ∧
  (GPUOperation.AddOperation host operation).1.definition_.src_tensors =
    host.definition_.src_tensors ++ operation.definition_.src_tensors.drop 1 ∧
  (GPUOperation.AddOperation host operation).1.src_tensors_names_ =
    host.src_tensors_names_ ++ operation.src_tensors_names_.map
      (fun n => n ++ ("_link" ++ toString (host.linkable_count_ + 1))) ∧
  (GPUOperation.AddOperation host operation).1.dst_tensors_names_ =
    host.dst_tensors_names_ ++ operation.dst_tensors_names_.map
      (fun n => n ++ ("_link" ++ toString (host.linkable_count_ + 1)))

/-- A concrete fusion host: one bound object, one source and one destination. -/
def c2host : GPUOperation :=
  { args_ := { objects := [("biases", AccessType.READ, tdB)] },
    code_ := "value = value + args.biases.Read(S);",
    elementwise_ := true,
    src_tensors_names_ := ["src_a"],
    dst_tensors_names_ := ["dst_a"],
    definition_ := { src_tensors := [tdN], dst_tensors := [tdN] } }

/-- A concrete linkable child with one extra source beyond position 0. -/
def c2child : GPUOperation :=
  { args_ := { objects := [("mul_w", AccessType.READ, tdN)] },
    code_ := "value = value * args.mul_w.Read(S);",
    elementwise_ := true,
    linkable_ := true,
    src_tensors_names_ := ["second_src"],
    dst_tensors_names_ := ["extra_dst"],
    definition_ := { src_tensors := [tdN, tdB], dst_tensors := [tdN] } }

/-- A concrete operation under the width-batch/height-depth/slices policy with
the spec example destination tensor (10, 1, 1, slices 2, batch 1). -/
def c3op : GPUOperation :=
  { tensor_to_grid_ := TensorToGrid.kWBToX_HDToY_SToZ,
    dst_ := [{ Width := 10, Height := 1, Depth := 1, Slices := 2, Batch := 1 }] }

/-- The destination tensor of `c3op`. -/
def c3d : GpuSpatialTensor :=
  { Width := 10, Height := 1, Depth := 1, Slices := 2, Batch := 1 }

/-- The post-state facts of `AssembleCode` on an elementwise operation with
first source descriptor `sd` and first destination descriptor `dd`: implicit
bindings inserted at position 0 (batched-width hint exactly when the
definition supports batch) and own code prepended to the fused code. -/
def C7Post (op op' : GPUOperation) (sd dd : TensorDescriptor) : Prop :=
  op'.src_tensors_names_ = "src_tensor" :: op.src_tensors_names_ ∧
  op'.dst_tensors_names_ = "dst_tensor" :: op.dst_tensors_names_ ∧
  op'.args_.objects = op.args_.objects ++
    [("src_tensor", AccessType.READ,
       if op.definition_.IsBatchSupported then
         sd.SetStateVar "BatchedWidth" "true" else sd),
     ("dst_tensor", AccessType.WRITE,
       if op.definition_.IsBatchSupported then
         dd.SetStateVar "BatchedWidth" "true" else dd)] ∧
  op'.elementwise_code_ = "\x7b\n" ++ op.code_ ++ "\n\x7d\n" ++ op.elementwise_code_

/-- A concrete elementwise operation with batch support and one pre-bound
object. -/
def c7op : GPUOperation :=
  { elementwise_ := true,
    code_ := "value.x = value.x + 1.0f;",
    args_ := { objects := [("scalars", AccessType.READ, tdN)] },
    elementwise_code_ := "\x7b\nvalue = value;\n\x7d\n",
    definition_ := { src_tensors := [tdB], dst_tensors := [tdB] } }

/-- The state of `c7op` after `AssembleCode`. -/
def c7res : GPUOperation := (c7op.AssembleCode gi0).toOption.getD c7op

/-- A concrete operation for dispatch enumeration. -/
def c8op : GPUOperation :=
  { grid_dimension_ := 2,
    grid_size_ := { x := 10, y := 7, z := 1 },
    work_group_launch_order_ := { x := 1, y := 0, z := 2 } }

/-- A concrete operation whose grid/launch scalars are distinctive. -/
def c9src : GPUOperation :=
  { work_group_size_ := { x := 4, y := 5, z := 6 },
    grid_dimension_ := 2,
    grid_size_ := { x := 7, y := 8, z := 9 },
    work_groups_count_ := { x := 2, y := 4, z := 1 },
    linkable_count_ := 3,
    code_ := "value = value;",
    src_tensors_names_ := ["src_x"],
    dst_tensors_names_ := ["dst_x"],
    elementwise_code_ := "\x7b\nfused\n\x7d\n" }

/-- The post-state facts on the host when `AddOperation` fails in the merge:
name and descriptor lists untouched, counter already bumped, renamed child
code already appended to the fused-code accumulator. -/
def C10Post (host operation : GPUOperation) : Prop :=
  (GPUOperation.AddOperation host operation).1.src_tensors_names_ =
    host.src_tensors_names_ ∧
  (GPUOperation.AddOperation host operation).1.dst_tensors_names_ =
    host.dst_tensors_names_ ∧
  (GPUOperation.AddOperation host operation).1.definition_.src_tensors =
    host.definition_.src_tensors ∧
  (GPUOperation.AddOperation host operation).1.linkable_count_ =
    host.linkable_count_ + 1 ∧
  (GPUOperation.AddOperation host operation).1.elementwise_code_ =
    host.elementwise_code_ ++ "\x7b\n" ++
      (operation.args_.RenameArgs ("_link" ++ toString (host.linkable_count_ + 1))
        operation.code_) ++ "\n\x7d\n"

/-- A host whose registry already holds the name a merge would produce. -/
def c10host : GPUOperation :=
  { args_ := { objects := [("w_link1", AccessType.READ, tdN)] },
    src_tensors_names_ := ["src_h"],
    dst_tensors_names_ := ["dst_h"],
    definition_ := { src_tensors := [tdN], dst_tensors := [tdN] } }

/-- A child whose suffixed registry name collides with the host's. -/
def c10child : GPUOperation :=
  { args_ := { objects := [("w", AccessType.READ, tdN)] },
    code_ := "value = value * args.w.Read(S);",
    linkable_ := true,
    src_tensors_names_ := ["child_src"],
    dst_tensors_names_ := ["child_dst"],
    definition_ := { src_tensors := [tdN, tdN], dst_tensors := [tdN] } }

/-- The fixed wrapper text up to and including the bounds-check early return
(gpu_operation.cc lines 58-64). -/
def ewHeader : String :=
  "MAIN_FUNCTION(\n$0) \x7b\n  int X = GLOBAL_ID_0;\n  int Y = GLOBAL_ID_1;\n  int Z = GLOBAL_ID_2;\n  if (X >= args.dst_tensor.Width() || Y >= args.dst_tensor.Height() || Z >= args.dst_tensor.Slices()) return; \n"

/-- The unconditional source-read template (gpu_operation.cc line 71). -/
def ewReadUnconditional : String :=
  "  args.src_tensor::type src = args.src_tensor.Read(X, Y, Z);\n"

/-- The guarded source-read template: zero-value initialisation and a read
guarded by the z index against the source slice count (lines 66-69). -/
def ewReadGuarded : String :=
  "  args.src_tensor::type src = args.src_tensor::zero_value;\n  if (Z < args.src_tensor.Slices()) \x7b\n    src = args.src_tensor.Read(X, Y, Z);\n  \x7d\n"

/-- The trailing destination write and closing brace (lines 73-74). -/
def ewTrailer : String :=
  "  args.dst_tensor.Write(src, X, Y, Z);\n\x7d \n"

/-- Projection of an assembly result onto the source-name list; keeps the
error alternative intact, so an `Except.ok` value here certifies that the
call itself succeeded. -/
def srcNamesOfResult (r : Except String GPUOperation) :
    Except String (List String) :=
  r.map (fun o => o.src_tensors_names_)

/-- C4: for every positive grid and work-group extents, the work-groups-count
computation with dimension 1 returns (ceil_div(grid.x, wg.x), 1, 1), with the
y and z components equal to 1 irrespective of the grid's y/z extents and of
the launch order. -/
theorem c4_work_groups_count_dim1 (grid wg order : int3)
    (hgx : 0 < grid.x) (hgy : 0 < grid.y) (hgz : 0 < grid.z)
    (hwx : 0 < wg.x) (hwy : 0 < wg.y) (hwz : 0 < wg.z) :
    GetWorkGroupsCountInternal 1 grid wg order =
      { x := DivideRoundUp grid.x wg.x, y := 1, z := 1 } := rfl

/-- Witness for C4: the spec example, grid (10, 1, 2) with work-group
(8, 1, 1) and identity order. -/
theorem c4_witness :
    ((0 : Int) < 10 ∧ (0 : Int) < 1 ∧ (0 : Int) < 2 ∧
     (0 : Int) < 8 ∧ (0 : Int) < 1 ∧ (0 : Int) < 1) ∧
    GetWorkGroupsCountInternal 1 { x := 10, y := 1, z := 2 }
      { x := 8, y := 1, z := 1 } { x := 0, y := 1, z := 2 } =
      { x := DivideRoundUp 10 8, y := 1, z := 1 } :=
  ⟨⟨by decide, by decide, by decide, by decide, by decide, by decide⟩,
   c4_work_groups_count_dim1 { x := 10, y := 1, z := 2 }
     { x := 8, y := 1, z := 1 } { x := 0, y := 1, z := 2 }
     (by decide) (by decide) (by decide) (by decide) (by decide) (by decide)⟩

/-- C5: for every positive grid and work-group extents, the dimension-2
computation under launch order [1, 0] returns x/y counts that are exactly the
swap of the counts under identity order [0, 1], with z equal to 1 in both. -/
theorem c5_dim2_launch_order_swap (grid wg : int3) (oz oz' : Int)
    (hgx : 0 < grid.x) (hgy : 0 < grid.y) (hgz : 0 < grid.z)
    (hwx : 0 < wg.x) (hwy : 0 < wg.y) (hwz : 0 < wg.z) :
    (GetWorkGroupsCountInternal 2 grid wg { x := 1, y := 0, z := oz }).x =
      (GetWorkGroupsCountInternal 2 grid wg { x := 0, y := 1, z := oz' }).y ∧
    (GetWorkGroupsCountInternal 2 grid wg { x := 1, y := 0, z := oz }).y =
      (GetWorkGroupsCountInternal 2 grid wg { x := 0, y := 1, z := oz' }).x ∧
    (GetWorkGroupsCountInternal 2 grid wg { x := 1, y := 0, z := oz }).z = 1 ∧
    (GetWorkGroupsCountInternal 2 grid wg { x := 0, y := 1, z := oz' }).z = 1 :=
  ⟨rfl, rfl, rfl, rfl⟩

/-- Witness for C5 at grid (10, 7, 1), work-group (4, 2, 1). -/
theorem c5_witness :
    ((0 : Int) < 10 ∧ (0 : Int) < 7 ∧ (0 : Int) < 1 ∧
     (0 : Int) < 4 ∧ (0 : Int) < 2 ∧ (0 : Int) < 1) ∧
    ((GetWorkGroupsCountInternal 2 { x := 10, y := 7, z := 1 }
        { x := 4, y := 2, z := 1 } { x := 1, y := 0, z := 2 }).x =
      (GetWorkGroupsCountInternal 2 { x := 10, y := 7, z := 1 }
        { x := 4, y := 2, z := 1 } { x := 0, y := 1, z := 2 }).y ∧
     (GetWorkGroupsCountInternal 2 { x := 10, y := 7, z := 1 }
        { x := 4, y := 2, z := 1 } { x := 1, y := 0, z := 2 }).y =
      (GetWorkGroupsCountInternal 2 { x := 10, y := 7, z := 1 }
        { x := 4, y := 2, z := 1 } { x := 0, y := 1, z := 2 }).x ∧
     (GetWorkGroupsCountInternal 2 { x := 10, y := 7, z := 1 }
        { x := 4, y := 2, z := 1 } { x := 1, y := 0, z := 2 }).z = 1 ∧
     (GetWorkGroupsCountInternal 2 { x := 10, y := 7, z := 1 }
        { x := 4, y := 2, z := 1 } { x := 0, y := 1, z := 2 }).z = 1) :=
  ⟨⟨by decide, by decide, by decide, by decide, by decide, by decide⟩,
   c5_dim2_launch_order_swap { x := 10, y := 7, z := 1 }
     { x := 4, y := 2, z := 1 } 2 2
     (by decide) (by decide) (by decide) (by decide) (by decide) (by decide)⟩

set_option maxRecDepth 4000 in
/-- C6: the synthesized elementwise wrapper decomposes, in order, into the
fixed header (global index computation followed by the early return once any
component meets or exceeds the destination width/height/slices), then the
source read — unconditional when `check_src_slices` is false, otherwise the
zero-value initialisation with the read guarded by comparing the z index
against the source slice count — then the destination write at the same
index. -/
theorem c6_elementwise_code_templates (d : OperationDef) :
    GetElementWiseCode d false = ewHeader ++ ewReadUnconditional ++ ewTrailer ∧
    GetElementWiseCode d true = ewHeader ++ ewReadGuarded ++ ewTrailer :=
  ⟨rfl, rfl⟩

/-- C3: with destination tensor `d` at position 0, an elementwise operation's
grid is always (Width*Batch, Height*Depth, Slices) regardless of policy; a
non-elementwise operation with none of the four named policies gets the
configured `grid_size_` verbatim; and the spec example tensor
(width 10, height 1, depth 1, slices 2, batch 1) under the
width-batch/height-depth/slices policy yields (10, 1, 2). -/
theorem c3_get_grid_size (op : GPUOperation) (d : GpuSpatialTensor)
    (hd : op.dst_.head? = some d) :
    (op.elementwise_ = true →
      op.GetGridSize =
        { x := d.Width * d.Batch, y := d.Height * d.Depth, z := d.Slices }) ∧
    (op.elementwise_ = false → op.tensor_to_grid_ = TensorToGrid.kCustom →
      op.GetGridSize = op.grid_size_) ∧
    (op.tensor_to_grid_ = TensorToGrid.kWBToX_HDToY_SToZ →
      d.Width = 10 → d.Height = 1 → d.Depth = 1 → d.Slices = 2 → d.Batch = 1 →
      op.GetGridSize = { x := 10, y := 1, z := 2 }) := by
  refine ⟨?_, ?_, ?_⟩
  · intro he
    simp [GPUOperation.GetGridSize, hd, he]
  · intro he ht
    simp [GPUOperation.GetGridSize, hd, he, ht]
  · intro ht hw hh hdep hs hb
    simp [GPUOperation.GetGridSize, hd, ht, hw, hh, hdep, hs, hb]

/-- Witness for C3: the spec example under the named policy derives grid
(10, 1, 2). -/
theorem c3_witness :
    c3op.dst_.head? = some c3d ∧ c3op.GetGridSize = { x := 10, y := 1, z := 2 } :=
  ⟨rfl, (c3_get_grid_size c3op c3d rfl).2.2 rfl rfl rfl rfl rfl rfl⟩

/-- C8: the dispatch enumeration has exactly one entry per candidate
work-group size returned by the tuning collaborator (so it is empty when the
collaborator finds none), and the i-th entry pairs the i-th candidate with
the work-groups count computed from the operation's grid dimension, grid size
and launch order together with that candidate. -/
theorem c8_get_possible_dispatches (op : GPUOperation)
    (work_group_sizes : List int3) (i : Nat) (c : int3)
    (hc : work_group_sizes.get? i = some c) :
    (op.GetPossibleDispatches work_group_sizes).length =
      work_group_sizes.length ∧
    (op.GetPossibleDispatches work_group_sizes).get? i = some
      { work_group_size := c,
        work_groups_count := GetWorkGroupsCountInternal op.grid_dimension_
          op.grid_size_ c op.work_group_launch_order_ } := by
  constructor
  · simp [GPUOperation.GetPossibleDispatches]
  · rw [List.get?_eq_getElem?] at hc
    simp [GPUOperation.GetPossibleDispatches, List.get?_eq_getElem?,
      List.getElem?_map, hc]

/-- Witness for C8 with two candidates, checked at index 1. -/
theorem c8_witness :
    ([{ x := 8, y := 1, z := 1 }, { x := 4, y := 2, z := 1 }] :
        List int3).get? 1 = some { x := 4, y := 2, z := 1 } ∧
    ((c8op.GetPossibleDispatches
        [{ x := 8, y := 1, z := 1 }, { x := 4, y := 2, z := 1 }]).length = 2 ∧
     (c8op.GetPossibleDispatches
        [{ x := 8, y := 1, z := 1 }, { x := 4, y := 2, z := 1 }]).get? 1 = some
        { work_group_size := { x := 4, y := 2, z := 1 },
          work_groups_count := GetWorkGroupsCountInternal c8op.grid_dimension_
            c8op.grid_size_ { x := 4, y := 2, z := 1 }
            c8op.work_group_launch_order_ }) :=
  ⟨rfl, c8_get_possible_dispatches c8op
    [{ x := 8, y := 1, z := 1 }, { x := 4, y := 2, z := 1 }] 1
    { x := 4, y := 2, z := 1 } rfl⟩

/-- C2: a successful `AddOperation(child)` increments the host's link counter
by exactly one, derives the suffix "_link" concatenated with the new counter
value, appends the child's renamed code wrapped in a fresh lexical block to
the host's fused code, appends the child's source descriptors from position 1
on (skipping position 0) paired with the child's suffixed source names, and
appends all of the child's suffixed destination names.  The hypothesis fixes
the child's descriptor list to hold exactly one descriptor per adopted name
plus the shared one at position 0, which the loop bounds presuppose. -/
theorem c2_add_operation_effect (host operation : GPUOperation)
    (hlen : operation.definition_.src_tensors.length =
      operation.src_tensors_names_.length + 1)
    (hok : (GPUOperation.AddOperation host operation).2 = Except.ok ()) :
    C2Post host operation := by
  have htake : (operation.definition_.src_tensors.drop 1).take
      operation.src_tensors_names_.length =
      operation.definition_.src_tensors.drop 1 := by
    apply List.take_of_length_le
    simp [hlen]
  rcases hm : Arguments.Merge host.args_ operation.args_
      ("_link" ++ toString (host.linkable_count_ + 1)) with e | merged
  · simp only [GPUOperation.AddOperation, hm] at hok
    cases hok
  · simp [C2Post, GPUOperation.AddOperation, hm, htake]
    omega

/-- Witness for C2: a host with one bound object fused with a linkable child
carrying one extra source and one destination. -/
theorem c2_witness :
    c2child.definition_.src_tensors.length =
      c2child.src_tensors_names_.length + 1 ∧
    (GPUOperation.AddOperation c2host c2child).2 = Except.ok () ∧
    C2Post c2host c2child :=
  ⟨rfl, rfl, c2_add_operation_effect c2host c2child rfl rfl⟩

/-- C10: when the registry merge inside `AddOperation` fails, the error is
returned and the host's source-name, destination-name and source-descriptor
lists are unchanged, while the link counter has already been incremented and
the child's renamed code already sits in the fused-code accumulator. -/
theorem c10_merge_failure_state (host operation : GPUOperation) (e : String)
    (herr : (GPUOperation.AddOperation host operation).2 = Except.error e) :
    C10Post host operation := by
  rcases hm : Arguments.Merge host.args_ operation.args_
      ("_link" ++ toString (host.linkable_count_ + 1)) with e' | merged
  · simp [C10Post, GPUOperation.AddOperation, hm]
  · simp only [GPUOperation.AddOperation, hm] at herr
    cases herr

/-- Witness for C10: the child's suffixed registry name collides with a name
the host already holds, so the merge fails. -/
theorem c10_witness :
    (GPUOperation.AddOperation c10host c10child).2 =
      Except.error "merge conflict" ∧
    C10Post c10host c10child :=
  ⟨rfl, c10_merge_failure_state c10host c10child "merge conflict" rfl⟩

/-- C7: for an elementwise operation, `AssembleCode` inserts "src_tensor" at
position 0 of the source-name list and "dst_tensor" at position 0 of the
destination-name list, registers them as read-only and write-only bindings
built from the first declared source/destination descriptors — with the
batched-width state variable exactly when the definition supports batch —
and prepends the operation's own pre-fusion code, wrapped in its own lexical
block, in front of the accumulated fused code. -/
theorem c7_assemble_code_elementwise (op op' : GPUOperation) (g : GpuInfo)
    (sd dd : TensorDescriptor)
    (he : op.elementwise_ = true)
    (hs : op.definition_.src_tensors.head? = some sd)
    (hdd : op.definition_.dst_tensors.head? = some dd)
    (h : op.AssembleCode g = Except.ok op') :
    C7Post op op' sd dd := by
  simp only [GPUOperation.AssembleCode, he, if_true, Arguments.Compile,
    Except.ok.injEq] at h
  subst h
  simp [C7Post, GPUOperation.CalculateConstArgsSize, Arguments.AddObjectRef,
    hs, hdd]

/-- Witness for C7: a concrete elementwise operation with batch support and a
pre-bound object. -/
theorem c7_witness :
    c7op.elementwise_ = true ∧
    c7op.definition_.src_tensors.head? = some tdB ∧
    c7op.definition_.dst_tensors.head? = some tdB ∧
    GPUOperation.AssembleCode c7op gi0 = Except.ok c7res ∧
    C7Post c7op c7res tdB tdB :=
  ⟨rfl, rfl, rfl, rfl,
   c7_assemble_code_elementwise c7op c7res gi0 tdB tdB rfl rfl rfl rfl⟩

/-- Companion fact used only by the C1 development: assembling an elementwise
operation succeeds in this model and inserts "src_tensor" at position 0. -/
theorem assembleCode_ok_of_elementwise (op : GPUOperation) (g : GpuInfo)
    (he : op.elementwise_ = true) :
    ∃ op2, op.AssembleCode g = Except.ok op2 ∧
      op2.src_tensors_names_ = "src_tensor" :: op.src_tensors_names_ ∧
      op2.elementwise_ = true := by
  simp only [GPUOperation.AssembleCode, he, if_true, Arguments.Compile]
  exact ⟨_, rfl, rfl, rfl⟩

/-- Counterexample for C1: `AssembleCode` contains no call-count guard, so a
second call on the same elementwise operation is not rejected — it returns
success again and silently re-runs the assembly, re-inserting the implicit
"src_tensor" binding (the source-name list ends up with the name twice). -/
theorem c1_counterexample :
    GPUOperation.AssembleCode c1op gi0 = Except.ok c1op1 ∧
    GPUOperation.AssembleCode c1op1 gi0 = Except.ok c1op2 ∧
    c1op2.src_tensors_names_ = ["src_tensor", "src_tensor"] :=
  ⟨rfl, rfl, rfl⟩

/-- C1 as amended: `AssembleCode` enforces no at-most-once contract; after a
first successful call on an elementwise operation, a second call succeeds as
well and re-runs the injection, so the implicit "src_tensor" name is inserted
at position 0 once more. -/
theorem c1_amended_assemble_rerun (op op1 : GPUOperation) (g : GpuInfo)
    (he : op.elementwise_ = true)
    (h1 : op.AssembleCode g = Except.ok op1) :
    op1.src_tensors_names_ = "src_tensor" :: op.src_tensors_names_ ∧
    srcNamesOfResult (op1.AssembleCode g) =
      Except.ok ("src_tensor" :: "src_tensor" :: op.src_tensors_names_) := by
  obtain ⟨op1', h1', hn1, he1⟩ := assembleCode_ok_of_elementwise op g he
  rw [h1] at h1'
  injection h1' with heq
  subst heq
  obtain ⟨op2, h2, hn2, -⟩ := assembleCode_ok_of_elementwise op1 g he1
  refine ⟨hn1, ?_⟩
  simp [srcNamesOfResult, h2, Except.map, hn2, hn1]

/-- Witness for the amended C1 at the concrete operation `c1op`. -/
theorem c1_amended_witness :
    c1op.elementwise_ = true ∧
    GPUOperation.AssembleCode c1op gi0 = Except.ok c1op1 ∧
    (c1op1.src_tensors_names_ = "src_tensor" :: c1op.src_tensors_names_ ∧
     srcNamesOfResult (c1op1.AssembleCode gi0) =
       Except.ok ("src_tensor" :: "src_tensor" :: c1op.src_tensors_names_)) :=
  ⟨rfl, rfl, c1_amended_assemble_rerun c1op c1op1 gi0 rfl rfl⟩

/-- Counterexample for C9: after move construction from `c9src`, the
moved-from object's `work_group_size_` still equals its own pre-move value —
the six grid/launch scalars are copied by the move constructor
(gpu_operation.cc lines 122-143), not exchanged away, so the moved-from
object does not end up holding the freshly created target's former values. -/
theorem c9_counterexample :
    ¬ ((GPUOperation.moveConstruct c9src).2.work_group_size_ ≠
      c9src.work_group_size_) :=
  fun h => h rfl

/-- C9 as amended: on move assignment the six grid/launch scalar fields are
exchanged, so the moved-from object retains the move target's former values;
on move construction they are merely copied, so the moved-from object retains
its own former values.  In both operations the code buffer, argument
registry, name lists and fused-code accumulator are genuinely transferred:
the target receives them and the moved-from object is left empty. -/
theorem c9_move_semantics (t s : GPUOperation) :
    ((GPUOperation.moveAssign t s).1.work_group_size_ = s.work_group_size_ ∧
     (GPUOperation.moveAssign t s).2.work_group_size_ = t.work_group_size_ ∧
     (GPUOperation.moveAssign t s).1.grid_dimension_ = s.grid_dimension_ ∧
     (GPUOperation.moveAssign t s).2.grid_dimension_ = t.grid_dimension_ ∧
     (GPUOperation.moveAssign t s).1.work_group_launch_order_ =
       s.work_group_launch_order_ ∧
     (GPUOperation.moveAssign t s).2.work_group_launch_order_ =
       t.work_group_launch_order_ ∧
     (GPUOperation.moveAssign t s).1.grid_size_ = s.grid_size_ ∧
     (GPUOperation.moveAssign t s).2.grid_size_ = t.grid_size_ ∧
     (GPUOperation.moveAssign t s).1.work_groups_count_ =
       s.work_groups_count_ ∧
     (GPUOperation.moveAssign t s).2.work_groups_count_ =
       t.work_groups_count_ ∧
     (GPUOperation.moveAssign t s).1.linkable_count_ = s.linkable_count_ ∧
     (GPUOperation.moveAssign t s).2.linkable_count_ = t.linkable_count_) ∧
    ((GPUOperation.moveAssign t s).1.code_ = s.code_ ∧
     (GPUOperation.moveAssign t s).2.code_ = "" ∧
     (GPUOperation.moveAssign t s).1.args_ = s.args_ ∧
     (GPUOperation.moveAssign t s).2.args_ = { objects := [] } ∧
     (GPUOperation.moveAssign t s).1.src_tensors_names_ =
       s.src_tensors_names_ ∧
     (GPUOperation.moveAssign t s).2.src_tensors_names_ = [] ∧
     (GPUOperation.moveAssign t s).1.dst_tensors_names_ =
       s.dst_tensors_names_ ∧
     (GPUOperation.moveAssign t s).2.dst_tensors_names_ = [] ∧
     (GPUOperation.moveAssign t s).1.elementwise_code_ =
       s.elementwise_code_ ∧
     (GPUOperation.moveAssign t s).2.elementwise_code_ = "") ∧
    ((GPUOperation.moveConstruct s).1.work_group_size_ = s.work_group_size_ ∧
     (GPUOperation.moveConstruct s).2.work_group_size_ = s.work_group_size_ ∧
     (GPUOperation.moveConstruct s).1.grid_dimension_ = s.grid_dimension_ ∧
     (GPUOperation.moveConstruct s).2.grid_dimension_ = s.grid_dimension_ ∧
     (GPUOperation.moveConstruct s).1.work_group_launch_order_ =
       s.work_group_launch_order_ ∧
     (GPUOperation.moveConstruct s).2.work_group_launch_order_ =
       s.work_group_launch_order_ ∧
     (GPUOperation.moveConstruct s).1.grid_size_ = s.grid_size_ ∧
     (GPUOperation.moveConstruct s).2.grid_size_ = s.grid_size_ ∧
     (GPUOperation.moveConstruct s).1.work_groups_count_ =
       s.work_groups_count_ ∧
     (GPUOperation.moveConstruct s).2.work_groups_count_ =
       s.work_groups_count_ ∧
     (GPUOperation.moveConstruct s).1.linkable_count_ = s.linkable_count_ ∧
     (GPUOperation.moveConstruct s).2.linkable_count_ = s.linkable_count_) ∧
    ((GPUOperation.moveConstruct s).1.code_ = s.code_ ∧
     (GPUOperation.moveConstruct s).2.code_ = "" ∧
     (GPUOperation.moveConstruct s).1.args_ = s.args_ ∧
     (GPUOperation.moveConstruct s).2.args_ = { objects := [] } ∧
     (GPUOperation.moveConstruct s).1.src_tensors_names_ =
       s.src_tensors_names_ ∧
     (GPUOperation.moveConstruct s).2.src_tensors_names_ = [] ∧
     (GPUOperation.moveConstruct s).1.dst_tensors_names_ =
       s.dst_tensors_names_ ∧
     (GPUOperation.moveConstruct s).2.dst_tensors_names_ = [] ∧
     (GPUOperation.moveConstruct s).1.elementwise_code_ =
       s.elementwise_code_ ∧
     (GPUOperation.moveConstruct s).2.elementwise_code_ = "") :=
  ⟨⟨rfl, rfl, rfl, rfl, rfl, rfl, rfl, rfl, rfl, rfl, rfl, rfl⟩,
   ⟨rfl, rfl, rfl, rfl, rfl, rfl, rfl, rfl, rfl, rfl⟩,
   ⟨rfl, rfl, rfl, rfl, rfl, rfl, rfl, rfl, rfl, rfl, rfl, rfl⟩,
   ⟨rfl, rfl, rfl, rfl, rfl, rfl, rfl, rfl, rfl, rfl⟩⟩
